import Mathlib

/-!
Verification of the absence-tracking core of the Projet_Flask school
administration application.

The Python source is shallowly embedded: SQLAlchemy rows become Lean
structures, table scans become list traversals, and the route handlers
for absence creation become pure functions over an explicit database
state.  Float-valued columns (`hours`, `absence_threshold`) are modelled
as rationals.
-/

namespace ProjetFlask

/-- A row of the `student_absence` table (src/models.py, class
`StudentAbsence`).  Only the columns the absence logic reads are kept;
`date` is abstracted to a natural-number day index. -/
structure StudentAbsence where
  student_id : Nat
  module_id : Nat
  date : Nat
  hours : ℚ
  is_justified : Bool
deriving DecidableEq, Repr

/-- A row of the `module` table (src/models.py, class `Module`): the id
and the `absence_threshold` Float column (default 10). -/
structure Module where
  id : Nat
  absence_threshold : ℚ
deriving DecidableEq, Repr

/-- A row of the `professor_absence` table (src/models.py, class
`ProfessorAbsence`). -/
structure ProfessorAbsence where
  professor_id : Nat
  date : Nat
  hours : ℚ
  is_justified : Bool
deriving DecidableEq, Repr

/-- `Module.query.get(module_id)`: primary-key lookup in the module
table. -/
def findModule (modules : List Module) (module_id : Nat) : Option Module :=
  modules.find? (fun m => m.id == module_id)

/-- `StudentProfile.get_total_absence_hours(self, module_id=None,
count_justified=False)` (src/models.py lines 138-146): filter the
student's absence rows, optionally by module (Python's `if module_id:`
is falsy for both `None` and `0`), drop justified rows unless
`count_justified`, and sum the `hours` column. -/
def getTotalAbsenceHours (db : List StudentAbsence) (student_id : Nat)
    (module_id : Option Nat := none) (count_justified : Bool := false) : ℚ :=
  let q := db.filter (fun a => a.student_id == student_id)
  let q := match module_id with
    | some m => if m ≠ 0 then q.filter (fun a : StudentAbsence => a.module_id == m) else q
    | none => q
  let q := if ¬count_justified then q.filter (fun a : StudentAbsence => a.is_justified == false) else q
  (q.map (fun a : StudentAbsence => a.hours)).sum

/-- `StudentProfile.get_absence_rate(self, module_id)` (src/models.py
lines 148-154): 0 when the module is missing or its threshold is 0,
else `total / threshold * 100`. -/
def getAbsenceRate (modules : List Module) (db : List StudentAbsence)
    (student_id module_id : Nat) : ℚ :=
  match findModule modules module_id with
  | none => 0
  | some module =>
    if module.absence_threshold = 0 then 0
    else getTotalAbsenceHours db student_id (some module_id) / module.absence_threshold * 100

/-- The three threshold states returned by `check_threshold_status`. -/
inductive Status where
  | ok
  | warning
  | exceeded
deriving DecidableEq, Repr

/-- Rank of a status in the order ok < warning < exceeded. -/
def Status.toNat : Status → Nat
  | .ok => 0
  | .warning => 1
  | .exceeded => 2

/-- The comparison chain of `check_threshold_status` (src/models.py
lines 164-168): `exceeded` when `total >= threshold`, else `warning`
when `total >= threshold * 0.5`, else `ok`. -/
def classifyStatus (threshold total : ℚ) : Status :=
  if total ≥ threshold then .exceeded
  else if total ≥ threshold * (1 / 2) then .warning
  else .ok

/-- `StudentProfile.check_threshold_status(self, module_id)`
(src/models.py lines 156-169): `ok` when the module is missing,
otherwise classify the unjustified total against the module's
threshold. -/
def checkThresholdStatus (modules : List Module) (db : List StudentAbsence)
    (student_id module_id : Nat) : Status :=
  match findModule modules module_id with
  | none => .ok
  | some module =>
    classifyStatus module.absence_threshold
      (getTotalAbsenceHours db student_id (some module_id))

/-- `ProfessorProfile.get_total_absence_hours(self,
count_justified=False)` (src/models.py lines 200-206): sum of `hours`
over `self.absences`, skipping justified rows unless
`count_justified`. -/
def profTotalAbsenceHours (absences : List ProfessorAbsence)
    (count_justified : Bool := false) : ℚ :=
  let l := if ¬count_justified then absences.filter (fun a => ¬a.is_justified) else absences
  (l.map (fun a => a.hours)).sum

/-- `ProfessorProfile.get_total_absence_days(self,
count_justified=False)` (src/models.py lines 208-212): total hours
divided by 8. -/
def profTotalAbsenceDays (absences : List ProfessorAbsence)
    (count_justified : Bool := false) : ℚ :=
  profTotalAbsenceHours absences count_justified / 8

/-- A row of the `threshold_setting` table (src/models.py, class
`ThresholdSetting`): global professor limits in days plus extra
hours. -/
structure ThresholdSetting where
  threshold_days : ℤ
  threshold_hours : ℤ
  warning_percentage : ℚ
deriving DecidableEq, Repr

/-- `ThresholdSetting.get_total_hours(self)` (src/models.py lines
463-465): `threshold_days * 8 + threshold_hours`. -/
def ThresholdSetting.getTotalHours (t : ThresholdSetting) : ℤ :=
  t.threshold_days * 8 + t.threshold_hours

/-- The request body of `POST /api/absences/students`
(src/routes/api.py `create_student_absence`): student, module, date,
hours, optional justification flag (defaulting to false). -/
structure AbsenceRequest where
  student_id : Nat
  module_id : Nat
  date : Nat
  hours : ℚ
  is_justified : Bool
deriving DecidableEq, Repr

/-- Outcome of the student-absence creation handler.  `notFound` covers
the missing-student and missing-module 404s, `duplicate` the 409
`DuplicateError`; both leave the database untouched, so they carry the
prior state.  `created` carries the new database, the returned
`total_hours` and `threshold_status`, and the `notification_sent`
field. -/
inductive CreateResult where
  | notFound (db : List StudentAbsence)
  | duplicate (db : List StudentAbsence)
  | created (db : List StudentAbsence) (total_hours : ℚ)
      (threshold_status : Status) (notification_sent : Option Status)
deriving DecidableEq, Repr

/-- `create_student_absence` (src/routes/api.py lines 380-467 and the
equivalent web-form handler in src/routes/admin.py lines 887-952):
reject a missing student or module, reject a duplicate
`(student, module, date)` row, otherwise persist the new row, recompute
the total and threshold status, and attempt the matching notification
email.  `email_fails` says whether `EmailService` raises; the handler
catches the exception, logs it, and leaves `notification_sent` unset. -/
def createStudentAbsence (students : List Nat) (modules : List Module)
    (db : List StudentAbsence) (req : AbsenceRequest)
    (email_fails : Bool) : CreateResult :=
  if ¬students.contains req.student_id then .notFound db
  else match findModule modules req.module_id with
  | none => .notFound db
  | some _module =>
    if db.any (fun a =>
        a.student_id == req.student_id && a.module_id == req.module_id
          && a.date == req.date) then
      .duplicate db
    else
      let absence : StudentAbsence :=
        { student_id := req.student_id, module_id := req.module_id,
          date := req.date, hours := req.hours, is_justified := req.is_justified }
      let db2 := db ++ [absence]
      let total_hours := getTotalAbsenceHours db2 req.student_id (some req.module_id)
      let status := checkThresholdStatus modules db2 req.student_id req.module_id
      let notification_sent : Option Status :=
        match status with
        | .warning => if email_fails then none else some .warning
        | .exceeded => if email_fails then none else some .exceeded
        | .ok => none
      .created db2 total_hours status notification_sent

/-- The request body of the professor-absence form
(src/routes/admin.py `create_professor_absence`). -/
structure ProfAbsenceRequest where
  professor_id : Nat
  date : Nat
  hours : ℚ
  is_justified : Bool
deriving DecidableEq, Repr

/-- Outcome of the professor-absence creation handler. -/
inductive ProfCreateResult where
  | duplicate (db : List ProfessorAbsence)
  | created (db : List ProfessorAbsence)
deriving DecidableEq, Repr

/-- `create_professor_absence` (src/routes/admin.py lines 983-1015):
reject a duplicate `(professor, date)` row with an error flash, else
persist the new row. -/
def createProfessorAbsence (db : List ProfessorAbsence)
    (req : ProfAbsenceRequest) : ProfCreateResult :=
  if db.any (fun a => a.professor_id == req.professor_id && a.date == req.date) then
    .duplicate db
  else
    let row : ProfessorAbsence :=
      { professor_id := req.professor_id, date := req.date,
        hours := req.hours, is_justified := req.is_justified }
    .created (db ++ [row])

/-! ### JSON error envelope (src/utils/exceptions.py) -/

/-- JSON values appearing in the error envelopes. -/
inductive Json where
  | str (s : String)
  | num (q : ℚ)
  | bool (b : Bool)
  | arr (elems : List Json)

/-- A Python dict, modelled as a finite map from keys to JSON values. -/
def Dict := String → Option Json

/-- `rv[k] = v`: update one key of a dict. -/
def Dict.set (d : Dict) (k : String) (v : Json) : Dict :=
  fun q => if q = k then some v else d q

/-- `dict(pairs)`: build a dict from key/value pairs, later pairs
overriding earlier ones. -/
def Dict.ofPairs (l : List (String × Json)) : Dict :=
  l.foldl (fun d p => Dict.set d p.1 p.2) (fun _ => none)

/-- The exception hierarchy of src/utils/exceptions.py.  `base` is a
bare `AppException(message, status_code, payload)`; the other
constructors are its subclasses with the extra attributes their
`__init__` stores. -/
inductive AppExc where
  | base (message : String) (status_code : Nat) (payload : List (String × Json))
  | validation (message : String) (field : Option String) (errors : List String)
  | authorization (message : String)
  | authentication (message : String)
  | notFound (message : String) (resource_type : Option String) (resource_id : Option Nat)
  | businessRule (message : String) (rule : Option String)
  | thresholdExceeded (message : String) (current_hours : Option ℚ)
      (threshold_hours : Option ℚ) (module_name : Option String)
  | duplicate (message : String) (field : Option String)
  | database (message : String)
  | email (message : String)

/-- `self.__class__.__name__`: the Python class name of the
exception. -/
def AppExc.kindName : AppExc → String
  | .base .. => "AppException"
  | .validation .. => "ValidationError"
  | .authorization .. => "AuthorizationError"
  | .authentication .. => "AuthenticationError"
  | .notFound .. => "NotFoundError"
  | .businessRule .. => "BusinessRuleError"
  | .thresholdExceeded .. => "ThresholdExceededError"
  | .duplicate .. => "DuplicateError"
  | .database .. => "DatabaseError"
  | .email .. => "EmailError"

/-- `self.message`. -/
def AppExc.message : AppExc → String
  | .base m .. => m
  | .validation m .. => m
  | .authorization m => m
  | .authentication m => m
  | .notFound m .. => m
  | .businessRule m .. => m
  | .thresholdExceeded m .. => m
  | .duplicate m .. => m
  | .database m => m
  | .email m => m

/-- `self.status_code` as fixed by each `__init__`. -/
def AppExc.statusCode : AppExc → Nat
  | .base _ c _ => c
  | .validation .. => 400
  | .authorization _ => 403
  | .authentication _ => 401
  | .notFound .. => 404
  | .businessRule .. => 422
  | .thresholdExceeded .. => 422
  | .duplicate .. => 409
  | .database _ => 500
  | .email _ => 500

/-- `AppException.to_dict` (src/utils/exceptions.py lines 14-19):
start from the payload, then set `success = False`,
`error = class name`, `message`. -/
def baseDict (payload : List (String × Json)) (kind msg : String) : Dict :=
  (((Dict.ofPairs payload).set "success" (.bool false)).set
    "error" (.str kind)).set "message" (.str msg)

/-- `to_dict` across the hierarchy: each subclass takes the base dict
(with its own class name) and adds its extra fields, guarded the way
the Python does (`if self.field:` — so empty strings, empty lists and
zero ids are skipped; the hour counts use `is not None`). -/
def AppExc.toDict : AppExc → Dict
  | .base msg _ payload => baseDict payload "AppException" msg
  | .validation msg field errors =>
    let rv := baseDict [] "ValidationError" msg
    let rv := match field with
      | some f => if f ≠ "" then rv.set "field" (.str f) else rv
      | none => rv
    if errors ≠ [] then rv.set "errors" (.arr (errors.map .str)) else rv
  | .authorization msg => baseDict [] "AuthorizationError" msg
  | .authentication msg => baseDict [] "AuthenticationError" msg
  | .notFound msg rtype rid =>
    let rv := baseDict [] "NotFoundError" msg
    let rv := match rtype with
      | some t => if t ≠ "" then rv.set "resource_type" (.str t) else rv
      | none => rv
    match rid with
    | some i => if i ≠ 0 then rv.set "resource_id" (.num i) else rv
    | none => rv
  | .businessRule msg rule =>
    let rv := baseDict [] "BusinessRuleError" msg
    match rule with
    | some r => if r ≠ "" then rv.set "rule" (.str r) else rv
    | none => rv
  | .thresholdExceeded msg cur thr mname =>
    let rv := baseDict [] "ThresholdExceededError" msg
    let rv := rv.set "rule" (.str "absence_threshold_exceeded")
    let rv := match cur with
      | some q => rv.set "current_hours" (.num q)
      | none => rv
    let rv := match thr with
      | some q => rv.set "threshold_hours" (.num q)
      | none => rv
    match mname with
    | some n => if n ≠ "" then rv.set "module_name" (.str n) else rv
    | none => rv
  | .duplicate msg field =>
    let rv := baseDict [] "DuplicateError" msg
    match field with
    | some f => if f ≠ "" then rv.set "field" (.str f) else rv
    | none => rv
  | .database msg => baseDict [] "DatabaseError" msg
  | .email msg => baseDict [] "EmailError" msg

/-! ### Helper lemmas -/

theorem Dict.set_self (d : Dict) (k : String) (v : Json) : Dict.set d k v k = some v := by
  simp [Dict.set]

theorem Dict.set_other (d : Dict) (k q : String) (v : Json) (h : q ≠ k) :
    Dict.set d k v q = d q := by
  simp [Dict.set, h]

theorem filter_filter_sum (f : StudentAbsence → ℚ) (p q : StudentAbsence → Bool)
    (l : List StudentAbsence) :
    (((l.filter p).filter q).map f).sum = ((l.filter fun a => p a && q a).map f).sum := by
  induction l with
  | nil => rfl
  | cons a t ih =>
    by_cases hp : p a <;> by_cases hq : q a <;>
      simp [hp, hq, ih, Bool.and_comm]

theorem checkThresholdStatus_eq_classify (modules : List Module)
    (db : List StudentAbsence) (sid mid : Nat) (module : Module)
    (hfind : findModule modules mid = some module) :
    checkThresholdStatus modules db sid mid =
      classifyStatus module.absence_threshold (getTotalAbsenceHours db sid (some mid)) := by
  unfold checkThresholdStatus
  rw [hfind]

theorem getAbsenceRate_eq (modules : List Module) (db : List StudentAbsence)
    (sid mid : Nat) (module : Module)
    (hfind : findModule modules mid = some module) :
    getAbsenceRate modules db sid mid =
      if module.absence_threshold = 0 then 0
      else getTotalAbsenceHours db sid (some mid) / module.absence_threshold * 100 := by
  unfold getAbsenceRate
  rw [hfind]

/-! ### Claims -/

/-- C1: with the module present, `check_threshold_status` returns
`exceeded` iff the unjustified total reaches the threshold, `warning`
iff the total is in `[threshold/2, threshold)`, and `ok` exactly
otherwise. -/
theorem check_threshold_status_correct (modules : List Module)
    (db : List StudentAbsence) (sid mid : Nat) (module : Module)
    (hfind : findModule modules mid = some module) :
    (checkThresholdStatus modules db sid mid = .exceeded ↔
      module.absence_threshold ≤ getTotalAbsenceHours db sid (some mid)) ∧
    (checkThresholdStatus modules db sid mid = .warning ↔
      module.absence_threshold * (1 / 2) ≤ getTotalAbsenceHours db sid (some mid) ∧
      getTotalAbsenceHours db sid (some mid) < module.absence_threshold) ∧
    (checkThresholdStatus modules db sid mid = .ok ↔
      getTotalAbsenceHours db sid (some mid) < module.absence_threshold * (1 / 2) ∧
      getTotalAbsenceHours db sid (some mid) < module.absence_threshold) := by
  rw [checkThresholdStatus_eq_classify modules db sid mid module hfind]
  unfold classifyStatus
  constructor
  · split_ifs with h1 h2 <;> simp_all <;> linarith
  constructor
  · split_ifs with h1 h2 <;> simp_all <;> constructor <;> linarith
  · split_ifs with h1 h2 <;> simp_all <;> constructor <;> linarith

/-- C1 witness: threshold 10 with 5 unjustified hours is `warning`, and
with 10 hours `exceeded`. -/
theorem check_threshold_status_correct_witness :
    checkThresholdStatus [⟨1, 10⟩] [⟨1, 1, 1, 5, false⟩] 1 1 = .warning ∧
    checkThresholdStatus [⟨1, 10⟩] [⟨1, 1, 1, 10, false⟩] 1 1 = .exceeded := by
  constructor
  · exact (check_threshold_status_correct [⟨1, 10⟩] [⟨1, 1, 1, 5, false⟩] 1 1
      ⟨1, 10⟩ (by decide)).2.1.mpr (by norm_num [getTotalAbsenceHours])
  · exact (check_threshold_status_correct [⟨1, 10⟩] [⟨1, 1, 1, 10, false⟩] 1 1
      ⟨1, 10⟩ (by decide)).1.mpr (by norm_num [getTotalAbsenceHours])

/-- C2 counterexample: with an existing module whose threshold is 0 and
no absences at all, `check_threshold_status` returns `exceeded`, not
`ok`: the zero-threshold guard exists only in `get_absence_rate`. -/
theorem zero_threshold_not_ok :
    checkThresholdStatus [⟨1, 0⟩] [] 1 1 = .exceeded := by decide

/-- C2 amended: for an existing module with threshold 0,
`check_threshold_status` returns `exceeded` whenever the unjustified
total is nonnegative (in particular always, absences having nonnegative
hours) and never returns `warning`; only `get_absence_rate` guards the
zero threshold, returning 0. -/
theorem zero_threshold_amended (modules : List Module) (db : List StudentAbsence)
    (sid mid : Nat) (module : Module)
    (hfind : findModule modules mid = some module)
    (hthr : module.absence_threshold = 0) :
    (0 ≤ getTotalAbsenceHours db sid (some mid) →
      checkThresholdStatus modules db sid mid = .exceeded) ∧
    checkThresholdStatus modules db sid mid ≠ .warning ∧
    getAbsenceRate modules db sid mid = 0 := by
  rw [checkThresholdStatus_eq_classify modules db sid mid module hfind,
    getAbsenceRate_eq modules db sid mid module hfind, hthr]
  unfold classifyStatus
  refine ⟨fun h => ?_, ?_, by simp⟩
  · simp [h, ge_iff_le]
  · split_ifs with h1 h2 <;> simp_all <;> linarith

/-- C2 witness for the amended statement, at the counterexample's
input. -/
theorem zero_threshold_amended_witness :
    checkThresholdStatus [⟨1, 0⟩] [] 1 1 = .exceeded ∧
    checkThresholdStatus [⟨1, 0⟩] [] 1 1 ≠ .warning ∧
    getAbsenceRate [⟨1, 0⟩] [] 1 1 = 0 := by
  have h := zero_threshold_amended [⟨1, 0⟩] [] 1 1 ⟨1, 0⟩ (by decide) rfl
  exact ⟨h.1 (by norm_num [getTotalAbsenceHours]), h.2.1, h.2.2⟩

/-- C7: for a fixed threshold the classified status is monotone in the
accumulated hours, in the order ok < warning < exceeded. -/
theorem status_monotone (t h1 h2 : ℚ) (hle : h1 ≤ h2) :
    (classifyStatus t h1).toNat ≤ (classifyStatus t h2).toNat := by
  unfold classifyStatus
  split_ifs <;> simp [Status.toNat] <;> linarith

/-- C7 witness: 5 hours against threshold 10 ranks no higher than 20
hours. -/
theorem status_monotone_witness :
    (classifyStatus 10 5).toNat ≤ (classifyStatus 10 20).toNat :=
  status_monotone 10 5 20 (by norm_num)

/-- C3 counterexample: with threshold 10, a first 5-hour absence puts
the student at `warning` and sends a warning email; a second 1-hour
absence leaves the status at `warning` and the handler sends a second
warning email, because nothing tracks whether one was already sent. -/
theorem repeat_warning_email_sent :
    createStudentAbsence [1] [⟨1, 10⟩] [] ⟨1, 1, 1, 5, false⟩ false =
      .created [⟨1, 1, 1, 5, false⟩] 5 .warning (some .warning) ∧
    createStudentAbsence [1] [⟨1, 10⟩] [⟨1, 1, 1, 5, false⟩] ⟨1, 1, 2, 1, false⟩ false =
      .created [⟨1, 1, 1, 5, false⟩, ⟨1, 1, 2, 1, false⟩] 6 .warning (some .warning) := by
  constructor <;>
    norm_num [createStudentAbsence, getTotalAbsenceHours, checkThresholdStatus,
      classifyStatus, findModule]

/-- The notification the handler attempts for a given post-creation
status. -/
def expectedNotification : Status → Option Status
  | .ok => none
  | .warning => some .warning
  | .exceeded => some .exceeded

/-- The row a successful creation appends. -/
def AbsenceRequest.toRow (req : AbsenceRequest) : StudentAbsence :=
  { student_id := req.student_id, module_id := req.module_id,
    date := req.date, hours := req.hours, is_justified := req.is_justified }

theorem create_missing_student (students : List Nat) (modules : List Module)
    (db : List StudentAbsence) (req : AbsenceRequest) (ef : Bool)
    (h1 : ¬students.contains req.student_id = true) :
    createStudentAbsence students modules db req ef = .notFound db := by
  unfold createStudentAbsence
  rw [if_pos (by simpa using h1)]

theorem create_missing_module (students : List Nat) (modules : List Module)
    (db : List StudentAbsence) (req : AbsenceRequest) (ef : Bool)
    (h1 : students.contains req.student_id = true)
    (hfm : findModule modules req.module_id = none) :
    createStudentAbsence students modules db req ef = .notFound db := by
  unfold createStudentAbsence
  rw [if_neg (by simpa using h1), hfm]

theorem create_duplicate (students : List Nat) (modules : List Module)
    (db : List StudentAbsence) (req : AbsenceRequest) (ef : Bool) (m : Module)
    (h1 : students.contains req.student_id = true)
    (hfm : findModule modules req.module_id = some m)
    (h2 : (db.any fun a => a.student_id == req.student_id
      && a.module_id == req.module_id && a.date == req.date) = true) :
    createStudentAbsence students modules db req ef = .duplicate db := by
  unfold createStudentAbsence
  rw [if_neg (by simpa using h1), hfm, if_pos h2]

theorem create_success (students : List Nat) (modules : List Module)
    (db : List StudentAbsence) (req : AbsenceRequest) (ef : Bool) (m : Module)
    (h1 : students.contains req.student_id = true)
    (hfm : findModule modules req.module_id = some m)
    (h2 : ¬(db.any fun a => a.student_id == req.student_id
      && a.module_id == req.module_id && a.date == req.date) = true) :
    createStudentAbsence students modules db req ef =
      .created (db ++ [req.toRow])
        (getTotalAbsenceHours (db ++ [req.toRow]) req.student_id (some req.module_id))
        (checkThresholdStatus modules (db ++ [req.toRow]) req.student_id req.module_id)
        (if ef then none
         else expectedNotification
           (checkThresholdStatus modules (db ++ [req.toRow]) req.student_id req.module_id)) := by
  unfold createStudentAbsence
  rw [if_neg (by simpa using h1), hfm, if_neg h2]
  simp only [AbsenceRequest.toRow]
  congr 1
  cases ef
  · split <;> rename_i heq <;> simp [heq, expectedNotification]
  · split <;> rfl

/-- C3 amended: notifications are attempted only by the creation
handler, and on every successful creation the notification sent is a
function of the resulting status alone — a warning email whenever the
new status is `warning` and an exceeded email whenever it is
`exceeded`, regardless of any earlier emails. -/
theorem notification_follows_status (students : List Nat) (modules : List Module)
    (db : List StudentAbsence) (req : AbsenceRequest)
    (db2 : List StudentAbsence) (th : ℚ) (st : Status) (ns : Option Status)
    (h : createStudentAbsence students modules db req false = .created db2 th st ns) :
    ns = expectedNotification st := by
  by_cases h1 : students.contains req.student_id = true
  · cases hfm : findModule modules req.module_id with
    | none =>
      rw [create_missing_module students modules db req false h1 hfm] at h
      simp at h
    | some m =>
      by_cases h2 : (db.any fun a =>
          a.student_id == req.student_id && a.module_id == req.module_id
            && a.date == req.date) = true
      · rw [create_duplicate students modules db req false m h1 hfm h2] at h
        simp at h
      · rw [create_success students modules db req false m h1 hfm h2] at h
        simp only [CreateResult.created.injEq, if_false, Bool.false_eq_true] at h
        obtain ⟨-, -, hst, hns⟩ := h
        subst hst
        subst hns
        rfl
  · rw [create_missing_student students modules db req false h1] at h
    simp at h

/-- C3 witness for the amended statement: the second creation of the
counterexample, whose resulting status `warning` forces a (repeat)
warning notification. -/
theorem notification_follows_status_witness :
    (some Status.warning) = expectedNotification Status.warning :=
  notification_follows_status [1] [⟨1, 10⟩] [⟨1, 1, 1, 5, false⟩] ⟨1, 1, 2, 1, false⟩
    [⟨1, 1, 1, 5, false⟩, ⟨1, 1, 2, 1, false⟩] 6 .warning (some .warning)
    (by norm_num [createStudentAbsence, getTotalAbsenceHours, checkThresholdStatus,
      classifyStatus, findModule])

/-- C4: if a creation succeeds when the email goes through, the same
creation with a failing email service persists the same row, reports
the same total and status (success), and merely leaves
`notification_sent` empty — the exception never surfaces. -/
theorem email_failure_swallowed (students : List Nat) (modules : List Module)
    (db : List StudentAbsence) (req : AbsenceRequest)
    (db2 : List StudentAbsence) (th : ℚ) (st : Status) (ns : Option Status)
    (h : createStudentAbsence students modules db req false = .created db2 th st ns) :
    createStudentAbsence students modules db req true = .created db2 th st none := by
  by_cases h1 : students.contains req.student_id = true
  · cases hfm : findModule modules req.module_id with
    | none =>
      rw [create_missing_module students modules db req false h1 hfm] at h
      simp at h
    | some m =>
      by_cases h2 : (db.any fun a =>
          a.student_id == req.student_id && a.module_id == req.module_id
            && a.date == req.date) = true
      · rw [create_duplicate students modules db req false m h1 hfm h2] at h
        simp at h
      · rw [create_success students modules db req false m h1 hfm h2] at h
        rw [create_success students modules db req true m h1 hfm h2]
        simp only [CreateResult.created.injEq, if_false, Bool.false_eq_true] at h
        obtain ⟨hdb, hth, hst, -⟩ := h
        simp only [CreateResult.created.injEq, if_true]
        exact ⟨hdb, hth, hst, trivial⟩
  · rw [create_missing_student students modules db req false h1] at h
    simp at h

/-- C4 witness: a concrete successful creation with the email failing
still persists the row and reports `warning` status with no
notification recorded. -/
theorem email_failure_swallowed_witness :
    createStudentAbsence [1] [⟨1, 10⟩] [] ⟨1, 1, 1, 5, false⟩ true =
      .created [⟨1, 1, 1, 5, false⟩] 5 .warning none :=
  email_failure_swallowed [1] [⟨1, 10⟩] [] ⟨1, 1, 1, 5, false⟩
    [⟨1, 1, 1, 5, false⟩] 5 .warning (some .warning)
    (by norm_num [createStudentAbsence, getTotalAbsenceHours, checkThresholdStatus,
      classifyStatus, findModule])

/-- C5: an existing row with the same key makes creation fail without
touching the stored records: a `(student, module, date)` clash yields
the duplicate outcome (`DuplicateError`, HTTP 409) with the database
unchanged, and likewise a `(professor, date)` clash for professors. -/
theorem duplicate_rejected (students : List Nat) (modules : List Module)
    (db : List StudentAbsence) (req : AbsenceRequest) (email_fails : Bool)
    (a : StudentAbsence) (pdb : List ProfessorAbsence)
    (preq : ProfAbsenceRequest) (b : ProfessorAbsence)
    (ha : a ∈ db) (h1 : a.student_id = req.student_id)
    (h2 : a.module_id = req.module_id) (h3 : a.date = req.date)
    (hs : req.student_id ∈ students)
    (hm : ∃ m, findModule modules req.module_id = some m)
    (hb : b ∈ pdb) (p1 : b.professor_id = preq.professor_id)
    (p2 : b.date = preq.date) :
    createStudentAbsence students modules db req email_fails = .duplicate db ∧
    createProfessorAbsence pdb preq = .duplicate pdb ∧
    ∀ msg field, AppExc.statusCode (.duplicate msg field) = 409 := by
  obtain ⟨m, hmod⟩ := hm
  refine ⟨?_, ?_, fun msg field => rfl⟩
  · have hin : students.contains req.student_id = true := by
      simpa using hs
    have hdup : (db.any fun x =>
        x.student_id == req.student_id && x.module_id == req.module_id
          && x.date == req.date) = true := by
      rw [List.any_eq_true]
      exact ⟨a, ha, by simp [h1, h2, h3]⟩
    exact create_duplicate students modules db req email_fails m hin hmod hdup
  · unfold createProfessorAbsence
    have hdup : pdb.any (fun x =>
        x.professor_id == preq.professor_id && x.date == preq.date) = true := by
      rw [List.any_eq_true]
      exact ⟨b, hb, by simp [p1, p2]⟩
    simp [hdup]

/-- C5 witness: a concrete duplicate student absence and a concrete
duplicate professor absence are both rejected with the stores
unchanged. -/
theorem duplicate_rejected_witness :
    createStudentAbsence [1] [⟨1, 10⟩] [⟨1, 1, 1, 5, false⟩] ⟨1, 1, 1, 3, false⟩ false =
      .duplicate [⟨1, 1, 1, 5, false⟩] ∧
    createProfessorAbsence [⟨2, 4, 8, false⟩] ⟨2, 4, 2, true⟩ =
      .duplicate [⟨2, 4, 8, false⟩] ∧
    ∀ msg field, AppExc.statusCode (.duplicate msg field) = 409 :=
  duplicate_rejected [1] [⟨1, 10⟩] [⟨1, 1, 1, 5, false⟩] ⟨1, 1, 1, 3, false⟩ false
    ⟨1, 1, 1, 5, false⟩ [⟨2, 4, 8, false⟩] ⟨2, 4, 2, true⟩ ⟨2, 4, 8, false⟩
    (by decide) rfl rfl rfl (by decide) ⟨⟨1, 10⟩, by decide⟩ (by decide) rfl rfl

/-- C6: the absence-hour totals are the sums of the `hours` column over
exactly the matching rows — the student's rows, restricted to the module
when a (nonzero) module filter is supplied, excluding justified rows
when `count_justified` is false (the default), and the analogous sums
for professors. -/
theorem total_hours_is_filtered_sum :
    (∀ (db : List StudentAbsence) (sid m : Nat), m ≠ 0 →
      getTotalAbsenceHours db sid (some m) false =
        ((db.filter fun a =>
          a.student_id == sid && a.module_id == m && !a.is_justified).map
            (fun a => a.hours)).sum) ∧
    (∀ (db : List StudentAbsence) (sid : Nat),
      getTotalAbsenceHours db sid none false =
        ((db.filter fun a => a.student_id == sid && !a.is_justified).map
          (fun a => a.hours)).sum) ∧
    (∀ (db : List StudentAbsence) (sid m : Nat), m ≠ 0 →
      getTotalAbsenceHours db sid (some m) true =
        ((db.filter fun a => a.student_id == sid && a.module_id == m).map
          (fun a => a.hours)).sum) ∧
    (∀ absences : List ProfessorAbsence,
      profTotalAbsenceHours absences false =
        ((absences.filter fun a => !a.is_justified).map (fun a => a.hours)).sum) ∧
    (∀ absences : List ProfessorAbsence,
      profTotalAbsenceHours absences true =
        (absences.map (fun a => a.hours)).sum) := by
  have hflip : ∀ a : StudentAbsence, (a.is_justified == false) = !a.is_justified := by
    intro a
    cases a.is_justified <;> rfl
  refine ⟨fun db sid m hm => ?_, fun db sid => ?_, fun db sid m hm => ?_,
    fun absences => ?_, fun absences => ?_⟩
  · unfold getTotalAbsenceHours
    simp only [hm, ne_eq, not_false_eq_true, if_true, Bool.false_eq_true, if_pos]
    rw [filter_filter_sum, filter_filter_sum]
    congr 2
    apply List.filter_congr
    intro a _
    rw [hflip, Bool.and_assoc]
  · unfold getTotalAbsenceHours
    simp only [Bool.false_eq_true, not_false_eq_true, if_pos]
    rw [filter_filter_sum]
    congr 2
    apply List.filter_congr
    intro a _
    rw [hflip]
  · unfold getTotalAbsenceHours
    simp only [hm, ne_eq, not_false_eq_true, if_true, not_true, if_neg,
      not_true_eq_false, if_false]
    rw [filter_filter_sum]
  · unfold profTotalAbsenceHours
    simp
  · unfold profTotalAbsenceHours
    simp

/-- C6 witness: the first conjunct evaluated at a two-row store where
one row is justified. -/
theorem total_hours_is_filtered_sum_witness :
    getTotalAbsenceHours [⟨1, 1, 1, 5, false⟩, ⟨1, 1, 2, 3, true⟩] 1 (some 1) false =
      ((([⟨1, 1, 1, 5, false⟩, ⟨1, 1, 2, 3, true⟩] : List StudentAbsence).filter
        (fun a : StudentAbsence => a.student_id == 1 && a.module_id == 1 && !a.is_justified)).map
          (fun a : StudentAbsence => a.hours)).sum :=
  total_hours_is_filtered_sum.1 [⟨1, 1, 1, 5, false⟩, ⟨1, 1, 2, 3, true⟩] 1 1
    (by decide)

/-- C9: division by the threshold is always guarded — a missing module
or a zero threshold makes `get_absence_rate` return 0 (and a missing
module makes `check_threshold_status` return `ok`); otherwise the rate
is `total / threshold * 100`. -/
theorem absence_rate_guarded (modules : List Module) (db : List StudentAbsence)
    (sid mid : Nat) :
    (findModule modules mid = none →
      getAbsenceRate modules db sid mid = 0 ∧
      checkThresholdStatus modules db sid mid = .ok) ∧
    (∀ module : Module, findModule modules mid = some module →
      module.absence_threshold = 0 → getAbsenceRate modules db sid mid = 0) ∧
    (∀ module : Module, findModule modules mid = some module →
      module.absence_threshold ≠ 0 →
      getAbsenceRate modules db sid mid =
        getTotalAbsenceHours db sid (some mid) / module.absence_threshold * 100) := by
  refine ⟨fun hnone => ?_, fun module hfind hz => ?_, fun module hfind hz => ?_⟩
  · unfold getAbsenceRate checkThresholdStatus
    rw [hnone]
    exact ⟨rfl, rfl⟩
  · rw [getAbsenceRate_eq modules db sid mid module hfind, if_pos hz]
  · rw [getAbsenceRate_eq modules db sid mid module hfind, if_neg hz]

/-- C9 witness: all three guards evaluated at concrete stores. -/
theorem absence_rate_guarded_witness :
    (getAbsenceRate [] [] 1 1 = 0 ∧ checkThresholdStatus [] [] 1 1 = .ok) ∧
    getAbsenceRate [⟨1, 0⟩] [⟨1, 1, 1, 5, false⟩] 1 1 = 0 ∧
    getAbsenceRate [⟨1, 10⟩] [⟨1, 1, 1, 5, false⟩] 1 1 =
      getTotalAbsenceHours [⟨1, 1, 1, 5, false⟩] 1 (some 1) / 10 * 100 :=
  ⟨(absence_rate_guarded [] [] 1 1).1 rfl,
   (absence_rate_guarded [⟨1, 0⟩] [⟨1, 1, 1, 5, false⟩] 1 1).2.1 ⟨1, 0⟩ (by decide) rfl,
   (absence_rate_guarded [⟨1, 10⟩] [⟨1, 1, 1, 5, false⟩] 1 1).2.2 ⟨1, 10⟩ (by decide)
     (by norm_num)⟩

/-- C10: a day is 8 hours in both conversions — the global professor
threshold is `days * 8 + hours`, and a professor's absence days are the
absence hours divided by 8 (exactly, in ℚ). -/
theorem day_is_eight_hours :
    (∀ t : ThresholdSetting,
      t.getTotalHours = t.threshold_days * 8 + t.threshold_hours) ∧
    (∀ (absences : List ProfessorAbsence) (cj : Bool),
      profTotalAbsenceDays absences cj = profTotalAbsenceHours absences cj / 8) ∧
    (∀ (absences : List ProfessorAbsence) (cj : Bool),
      8 * profTotalAbsenceDays absences cj = profTotalAbsenceHours absences cj) := by
  refine ⟨fun t => rfl, fun absences cj => rfl, fun absences cj => ?_⟩
  unfold profTotalAbsenceDays
  field_simp

/-- C8: every JSON error response built from the exception hierarchy
has the envelope `success = false`, `error = <class name>`,
`message = <the stored message>`, whatever extra fields the subclass
adds. -/
theorem error_envelope (e : AppExc) :
    e.toDict "success" = some (.bool false) ∧
    e.toDict "error" = some (.str e.kindName) ∧
    e.toDict "message" = some (.str e.message) := by
  cases e with
  | base msg c payload =>
    refine ⟨?_, ?_, ?_⟩ <;>
      simp [AppExc.toDict, baseDict, Dict.set, AppExc.kindName, AppExc.message]
  | validation msg field errors =>
    rcases field with _ | f <;>
      refine ⟨?_, ?_, ?_⟩ <;>
        simp [AppExc.toDict, baseDict, Dict.set, AppExc.kindName, AppExc.message] <;>
          split_ifs <;> simp [Dict.set]
  | authorization msg =>
    refine ⟨?_, ?_, ?_⟩ <;>
      simp [AppExc.toDict, baseDict, Dict.set, AppExc.kindName, AppExc.message]
  | authentication msg =>
    refine ⟨?_, ?_, ?_⟩ <;>
      simp [AppExc.toDict, baseDict, Dict.set, AppExc.kindName, AppExc.message]
  | notFound msg rtype rid =>
    rcases rtype with _ | t <;> rcases rid with _ | i <;>
      refine ⟨?_, ?_, ?_⟩ <;>
        simp [AppExc.toDict, baseDict, Dict.set, AppExc.kindName, AppExc.message] <;>
          split_ifs <;> simp [Dict.set]
  | businessRule msg rule =>
    rcases rule with _ | r <;>
      refine ⟨?_, ?_, ?_⟩ <;>
        simp [AppExc.toDict, baseDict, Dict.set, AppExc.kindName, AppExc.message] <;>
          split_ifs <;> simp [Dict.set]
  | thresholdExceeded msg cur thr mname =>
    rcases cur with _ | q1 <;> rcases thr with _ | q2 <;> rcases mname with _ | n <;>
      refine ⟨?_, ?_, ?_⟩ <;>
        simp [AppExc.toDict, baseDict, Dict.set, AppExc.kindName, AppExc.message] <;>
          split_ifs <;> simp [Dict.set]
  | duplicate msg field =>
    rcases field with _ | f <;>
      refine ⟨?_, ?_, ?_⟩ <;>
        simp [AppExc.toDict, baseDict, Dict.set, AppExc.kindName, AppExc.message] <;>
          split_ifs <;> simp [Dict.set]
  | database msg =>
    refine ⟨?_, ?_, ?_⟩ <;>
      simp [AppExc.toDict, baseDict, Dict.set, AppExc.kindName, AppExc.message]
  | email msg =>
    refine ⟨?_, ?_, ?_⟩ <;>
      simp [AppExc.toDict, baseDict, Dict.set, AppExc.kindName, AppExc.message]

end ProjetFlask
